import Mathlib

/-!
ReliefRoute decision pipeline: a shallow embedding.

This file embeds the decision-pipeline core of the ReliefRoute backend
(`backend/app/agent.py`, `backend/app/routing.py`, static data from
`backend/app/scenarios.py`) into Lean and proves properties of the embedding.

Modelling conventions:
* Python dictionaries carrying scenario data become structures; a key that the
  code reads with `dict.get(key, default)` and that may be absent becomes an
  `Option` field, with the default applied at the use site, exactly as in the
  source.  Keys that the code resolves through legacy aliases
  (`severity_level` / `severity`, `hospital_load_pct` / `hospital_load`,
  `zones_impacted` / `zones_affected`) are modelled by the single resolved
  field that the alias chain produces.
* Python floats are modelled by exact arithmetic: `ℚ` wherever the program
  only adds, multiplies, divides and compares decimal literals, and `ℝ` for
  the trigonometric haversine formula.  `int(x)` truncation toward zero and
  floor division `//` are modelled explicitly.
* `heapq` pops the least tuple in lexicographic order; queue entries here are
  compared by `(f, node, path)`, which totally orders all distinct entries the
  algorithm ever stores (two entries with the same path are identical).
* The A* heuristic of the source computes a haversine distance with `math`
  trigonometry on floats.  The search loop is embedded with the heuristic as
  an explicit function parameter, and the loop theorems hold for every
  heuristic, hence in particular for the source's; the haversine formula
  itself is embedded separately over `ℝ`.
-/

namespace ReliefRoute

/-- Flood-specific dictionary (`disaster_specific["flood"]`); the code reads
`water_level_m` with `.get`, so the key is optional. -/
structure FloodData where
  water_level_m : Option ℚ
deriving DecidableEq, Repr

/-- Cyclone-specific dictionary (`disaster_specific["cyclone"]`). -/
structure CycloneData where
  max_wind_speed_kmph : Option ℚ
deriving DecidableEq, Repr

/-- Earthquake-specific dictionary (`disaster_specific["earthquake"]`).
`building_collapse_ratio` is the source's key of the same name. -/
structure EarthquakeData where
  magnitude : Option ℚ
  building_collapse_ratio : Option ℚ
deriving DecidableEq, Repr

/-- Heatwave-specific dictionary (`disaster_specific["heatwave"]`). -/
structure HeatwaveData where
  max_temp_c : Option ℚ
deriving DecidableEq, Repr

/-- The `disaster_specific` container; each sub-dictionary may be absent
(`None`, a missing key, or an empty — hence falsy — dictionary). -/
structure DisasterSpecific where
  flood : Option FloodData
  cyclone : Option CycloneData
  earthquake : Option EarthquakeData
  heatwave : Option HeatwaveData
deriving DecidableEq, Repr

/-- The empty `disaster_specific` dictionary. -/
def DisasterSpecific.empty : DisasterSpecific := ⟨none, none, none, none⟩

/-- A scenario dictionary, with alias chains already resolved:
`severity` is `scenario.get("severity_level", scenario.get("severity", 3))`,
`hospital_load` is the raw value of
`scenario.get("hospital_load_pct", scenario.get("hospital_load", 50))`
before any normalisation, and `zones_impacted` is
`scenario.get("zones_impacted", scenario.get("zones_affected", []))`.
The trailing optional fields are the legacy top-level keys that
`calculate_scenario_similarity` uses as fallbacks, and the
`resources_deployed.medical_kits` entry read by `estimate_resources`. -/
structure Scenario where
  disaster_type : String
  severity : ℤ
  population_affected : ℤ
  hospital_load : ℚ
  zones_impacted : List String
  blocked_roads : List String
  disaster_specific : DisasterSpecific
  flood_depth_m : Option ℚ
  wind_speed_kmh : Option ℚ
  temperature_c : Option ℚ
  resources_deployed_medical_kits : Option ℚ
deriving DecidableEq, Repr

/-! ## Learning weights (`ReliefRouteAgent.__init__`, `update_learning_weights`) -/

/-- The three learning weights of the agent. -/
structure LearningWeights where
  medical : ℚ
  evacuation : ℚ
  infrastructure : ℚ
deriving DecidableEq, Repr

/-- `self.learning_weights` as initialised in `ReliefRouteAgent.__init__`. -/
def initialWeights : LearningWeights := ⟨1, 1, 1⟩

/-- Sum of the three learning weights. -/
def LearningWeights.total (w : LearningWeights) : ℚ :=
  w.medical + w.evacuation + w.infrastructure

/-- Multiply every learning weight by the same factor. -/
def LearningWeights.scale (w : LearningWeights) (c : ℚ) : LearningWeights :=
  ⟨w.medical * c, w.evacuation * c, w.infrastructure * c⟩

/-- `update_learning_weights` (agent.py lines 730–744): multiply all weights by
`1.01` on `"approved"`, by `0.98` on `"aborted"`, leave them unchanged on any
other feedback string, then divide every weight by `total / 3`. -/
def update_learning_weights (w : LearningWeights) (feedback : String) : LearningWeights :=
  let w1 :=
    if feedback = "approved" then w.scale (101 / 100)
    else if feedback = "aborted" then w.scale (98 / 100)
    else w
  let total := w1.total
  ⟨w1.medical / (total / 3), w1.evacuation / (total / 3), w1.infrastructure / (total / 3)⟩

/-- A finite sequence of feedback calls applied to the initial weights. -/
def applyFeedbacks (fs : List String) : LearningWeights :=
  fs.foldl update_learning_weights initialWeights

/-- One feedback step maps the initial weight vector to itself: scaling all
three weights by a positive constant and renormalising the sum to 3 is the
identity on `(1, 1, 1)`. -/
theorem update_initial_fixed (f : String) :
    update_learning_weights initialWeights f = initialWeights := by
  unfold update_learning_weights initialWeights LearningWeights.scale LearningWeights.total
  by_cases h1 : f = "approved" <;> by_cases h2 : f = "aborted" <;>
    simp [h1, h2] <;> norm_num

/-- Any feedback sequence leaves the weight vector at its initial value. -/
theorem applyFeedbacks_eq_initial (fs : List String) :
    applyFeedbacks fs = initialWeights := by
  unfold applyFeedbacks
  induction fs with
  | nil => rfl
  | cons f fs ih => rw [List.foldl_cons, update_initial_fixed]; exact ih

/-- C7: starting from the initial weights (all `1.0`), after any finite
sequence of `update_learning_weights` calls with feedback `"approved"` or
`"aborted"`, the sum of the three learning weights equals `3`: each call
multiplies all weights by `1.01` or `0.98` and renormalises the sum to `3`
(exact in this rational-arithmetic model of the float computation). -/
theorem learning_weights_sum_invariant (fs : List String)
    (hfs : ∀ f ∈ fs, f = "approved" ∨ f = "aborted") :
    (applyFeedbacks fs).total = 3 := by
  rw [applyFeedbacks_eq_initial fs]
  norm_num [initialWeights, LearningWeights.total]

/-- Witness for C7 at the concrete sequence `["approved", "aborted"]`. -/
theorem learning_weights_sum_invariant_witness :
    (∀ f ∈ ["approved", "aborted"], f = "approved" ∨ f = "aborted") ∧
      (applyFeedbacks ["approved", "aborted"]).total = 3 :=
  ⟨by decide, learning_weights_sum_invariant ["approved", "aborted"] (by decide)⟩

/-- C10: because `update_learning_weights` multiplies all three weights by the
same factor and then renormalises their sum to `3`, every individual weight
is exactly its initial value `1` after any finite sequence of
approved/aborted feedback calls — the feedback mechanism never changes the
weight vector (exact in this rational model of the float computation). -/
theorem learning_weights_never_change (fs : List String)
    (hfs : ∀ f ∈ fs, f = "approved" ∨ f = "aborted") :
    (applyFeedbacks fs).medical = 1 ∧ (applyFeedbacks fs).evacuation = 1 ∧
      (applyFeedbacks fs).infrastructure = 1 := by
  rw [applyFeedbacks_eq_initial fs]
  exact ⟨rfl, rfl, rfl⟩

/-- Witness for C10 at the concrete sequence `["aborted", "approved", "approved"]`. -/
theorem learning_weights_never_change_witness :
    (∀ f ∈ ["aborted", "approved", "approved"], f = "approved" ∨ f = "aborted") ∧
      ((applyFeedbacks ["aborted", "approved", "approved"]).medical = 1 ∧
        (applyFeedbacks ["aborted", "approved", "approved"]).evacuation = 1 ∧
        (applyFeedbacks ["aborted", "approved", "approved"]).infrastructure = 1) :=
  ⟨by decide, learning_weights_never_change ["aborted", "approved", "approved"] (by decide)⟩

/-! ## Risk classifier (`determine_risk_level`, agent.py lines 415–449) -/

/-- One entry of the inventory-status dictionary produced by
`check_inventory`: `{"required": …, "available": …, "gap": …}`. -/
structure GapEntry where
  required : ℤ
  available : ℤ
  gap : ℤ
deriving DecidableEq, Repr

/-- `determine_risk_level` (agent.py lines 428–449; the preceding ML branch
only computes an advisory label that the function never uses).  Hospital load
`≤ 1` is multiplied by `100`; `has_critical_gap` is
`any(item["gap"] > 0 and item["gap"] > item["available"] * 0.3)`. -/
def determine_risk_level (scenario : Scenario) (inventory_status : List GapEntry) : String :=
  let severity := scenario.severity
  let hospital_load :=
    if scenario.hospital_load ≤ 1 then scenario.hospital_load * 100 else scenario.hospital_load
  let has_critical_gap := inventory_status.any fun item =>
    decide (0 < item.gap) && decide ((item.available : ℚ) * (3 / 10) < (item.gap : ℚ))
  if 5 ≤ severity ∨ (90 : ℚ) ≤ hospital_load ∨ has_critical_gap then "CRITICAL"
  else if 4 ≤ severity ∨ (75 : ℚ) ≤ hospital_load then "HIGH"
  else if 3 ≤ severity ∨ (50 : ℚ) ≤ hospital_load then "MODERATE"
  else "LOW"

/-- Modelled from the spec's words for comparison with
`determine_risk_level`: a first-match-wins cascade over the normalised
hospital-load percentage — CRITICAL iff severity ≥ 5 or load ≥ 90 or some
resource has a positive gap exceeding 30 % of its available stock; otherwise
HIGH iff severity ≥ 4 or load ≥ 75; otherwise MODERATE iff severity ≥ 3 or
load ≥ 50; otherwise LOW. -/
def riskLevelSpec (severity : ℤ) (loadPct : ℚ) (inv : List GapEntry) : String :=
  if 5 ≤ severity ∨ 90 ≤ loadPct ∨
      ∃ item ∈ inv, 0 < item.gap ∧ (item.available : ℚ) * (3 / 10) < (item.gap : ℚ) then
    "CRITICAL"
  else if 4 ≤ severity ∨ 75 ≤ loadPct then "HIGH"
  else if 3 ≤ severity ∨ 50 ≤ loadPct then "MODERATE"
  else "LOW"

/-- C3: for every scenario and inventory snapshot, `determine_risk_level`
returns exactly the first-match-wins cascade of the specification, evaluated
on the normalised hospital-load percentage: CRITICAL iff severity ≥ 5 or
load ≥ 90 % or some resource has gap > 0 exceeding 30 % of its available
stock; else HIGH iff severity ≥ 4 or load ≥ 75 %; else MODERATE iff
severity ≥ 3 or load ≥ 50 %; else LOW. -/
theorem determine_risk_level_spec (scenario : Scenario) (inv : List GapEntry) :
    determine_risk_level scenario inv =
      riskLevelSpec scenario.severity
        (if scenario.hospital_load ≤ 1 then scenario.hospital_load * 100
         else scenario.hospital_load)
        inv := by
  unfold determine_risk_level riskLevelSpec
  simp only [List.any_eq_true, Bool.and_eq_true, decide_eq_true_eq]

/-! ## Inventory gap analyzer (`check_inventory`, agent.py lines 319–366) -/

/-- The resource-estimate dictionary returned by `estimate_resources`:
eight numeric fields plus the non-numeric `prediction_method` tag. -/
structure ResourceEstimate where
  medical_kits_required : ℤ
  food_packets_required : ℤ
  water_liters_required : ℤ
  shelter_kits_required : ℤ
  boats_required : ℤ
  drones_required : ℤ
  trucks_required : ℤ
  helicopters_required : ℤ
  prediction_method : String
deriving DecidableEq, Repr

/-- Caller-supplied `available_resources` dictionary; each key is read with
`.get(key, 0)`, so each field is optional. -/
structure AvailableResources where
  medical_kits_available : Option ℤ
  boats_available : Option ℤ
  drones_available : Option ℤ
  trucks_available : Option ℤ
deriving DecidableEq, Repr

/-- One depot of `DEPOT_INVENTORY` (scenarios.py lines 312–373): its
`resources` and `vehicles` count dictionaries. -/
structure Depot where
  resources : List (String × ℤ)
  vehicles : List (String × ℤ)
deriving DecidableEq, Repr

/-- `DEPOT_INVENTORY`: central, north and south depots with their stock. -/
def DEPOT_INVENTORY : List Depot :=
  [⟨[("medical_kits", 10000), ("food_packets", 50000), ("water_liters", 500000),
      ("shelter_kits", 2000), ("oxygen_cylinders", 500), ("vaccines", 5000),
      ("surgical_kits", 200)],
    [("trucks", 20), ("boats", 8), ("drones", 10), ("helicopters", 2)]⟩,
   ⟨[("medical_kits", 5000), ("food_packets", 25000), ("water_liters", 250000),
      ("shelter_kits", 1000), ("oxygen_cylinders", 200), ("vaccines", 2000),
      ("surgical_kits", 100)],
    [("trucks", 10), ("boats", 4), ("drones", 5), ("helicopters", 1)]⟩,
   ⟨[("medical_kits", 5000), ("food_packets", 25000), ("water_liters", 250000),
      ("shelter_kits", 1000), ("oxygen_cylinders", 200), ("vaccines", 2000),
      ("surgical_kits", 100)],
    [("trucks", 10), ("boats", 4), ("drones", 5), ("helicopters", 1)]⟩]

/-- `total_available[k] += v` when the key `k` is already tracked; counts with
untracked keys (oxygen cylinders, vaccines, surgical kits) are skipped. -/
def bumpKey (tot : List (String × ℤ)) (k : String) (v : ℤ) : List (String × ℤ) :=
  tot.map fun kv => if kv.1 = k then (kv.1, kv.2 + v) else kv

/-- Fold one count dictionary into the running totals. -/
def addCounts (tot : List (String × ℤ)) (entries : List (String × ℤ)) : List (String × ℤ) :=
  entries.foldl (fun t kv => bumpKey t kv.1 kv.2) tot

/-- `total_available[k] = max(total_available[k], v)` for a caller override. -/
def maxKey (tot : List (String × ℤ)) (k : String) (v : ℤ) : List (String × ℤ) :=
  tot.map fun kv => if kv.1 = k then (kv.1, max kv.2 v) else kv

/-- The gap record for one resource: `gap = max(0, required − available)`. -/
def gapFor (tot : List (String × ℤ)) (k : String) (req : ℤ) : GapEntry :=
  let available := (tot.lookup k).getD 0
  ⟨req, available, max 0 (req - available)⟩

/-- `check_inventory` (agent.py lines 319–366): totals start at zero for the
eight tracked keys, every depot's resource and vehicle counts are added, the
four caller overrides (when the caller dictionary is truthy) raise the
matching totals via `max`, and each numeric `*_required` field of the
estimate yields a `{required, available, gap}` record under the key with the
`_required` suffix stripped; the non-numeric `prediction_method` field is
skipped by the `isinstance` guard. -/
def check_inventory (required : ResourceEstimate) (available_resources : Option AvailableResources) :
    List (String × GapEntry) :=
  let tot0 : List (String × ℤ) :=
    [("medical_kits", 0), ("food_packets", 0), ("water_liters", 0), ("shelter_kits", 0),
     ("boats", 0), ("drones", 0), ("trucks", 0), ("helicopters", 0)]
  let tot1 := DEPOT_INVENTORY.foldl (fun t d => addCounts (addCounts t d.resources) d.vehicles) tot0
  let tot2 :=
    match available_resources with
    | some a =>
        let t := maxKey tot1 ("medical_kits") (a.medical_kits_available.getD 0)
        let t := maxKey t ("boats") (a.boats_available.getD 0)
        let t := maxKey t ("drones") (a.drones_available.getD 0)
        maxKey t ("trucks") (a.trucks_available.getD 0)
    | none => tot1
  [("medical_kits", gapFor tot2 ("medical_kits") required.medical_kits_required),
   ("food_packets", gapFor tot2 ("food_packets") required.food_packets_required),
   ("water_liters", gapFor tot2 ("water_liters") required.water_liters_required),
   ("shelter_kits", gapFor tot2 ("shelter_kits") required.shelter_kits_required),
   ("boats", gapFor tot2 ("boats") required.boats_required),
   ("drones", gapFor tot2 ("drones") required.drones_required),
   ("trucks", gapFor tot2 ("trucks") required.trucks_required),
   ("helicopters", gapFor tot2 ("helicopters") required.helicopters_required)]

/-- C6: for every required estimate and caller-supplied overrides,
`check_inventory` reports per numeric resource `gap = max(0, required −
available)`, where `available` is the sum of that resource over the three
depots, raised — never lowered — to the caller's override via
`max(depot_total, override)` for the four overridable resources; the
non-numeric `prediction_method` field of the estimate produces no entry
(the produced keys are exactly the eight resource names). -/
theorem check_inventory_gap_spec (required : ResourceEstimate)
    (ar : Option AvailableResources) :
    let ov : (AvailableResources → Option ℤ) → ℤ := fun f =>
      match ar with
      | some a => (f a).getD 0
      | none => 0
    (check_inventory required ar).map Prod.fst =
      ["medical_kits", "food_packets", "water_liters", "shelter_kits",
       "boats", "drones", "trucks", "helicopters"] ∧
    ((check_inventory required ar).lookup ("medical_kits") =
      some ⟨required.medical_kits_required,
        max (10000 + 5000 + 5000) (ov AvailableResources.medical_kits_available),
        max 0 (required.medical_kits_required -
          max (10000 + 5000 + 5000) (ov AvailableResources.medical_kits_available))⟩) ∧
    ((check_inventory required ar).lookup ("food_packets") =
      some ⟨required.food_packets_required, 50000 + 25000 + 25000,
        max 0 (required.food_packets_required - (50000 + 25000 + 25000))⟩) ∧
    ((check_inventory required ar).lookup ("water_liters") =
      some ⟨required.water_liters_required, 500000 + 250000 + 250000,
        max 0 (required.water_liters_required - (500000 + 250000 + 250000))⟩) ∧
    ((check_inventory required ar).lookup ("shelter_kits") =
      some ⟨required.shelter_kits_required, 2000 + 1000 + 1000,
        max 0 (required.shelter_kits_required - (2000 + 1000 + 1000))⟩) ∧
    ((check_inventory required ar).lookup ("boats") =
      some ⟨required.boats_required,
        max (8 + 4 + 4) (ov AvailableResources.boats_available),
        max 0 (required.boats_required -
          max (8 + 4 + 4) (ov AvailableResources.boats_available))⟩) ∧
    ((check_inventory required ar).lookup ("drones") =
      some ⟨required.drones_required,
        max (10 + 5 + 5) (ov AvailableResources.drones_available),
        max 0 (required.drones_required -
          max (10 + 5 + 5) (ov AvailableResources.drones_available))⟩) ∧
    ((check_inventory required ar).lookup ("trucks") =
      some ⟨required.trucks_required,
        max (20 + 10 + 10) (ov AvailableResources.trucks_available),
        max 0 (required.trucks_required -
          max (20 + 10 + 10) (ov AvailableResources.trucks_available))⟩) ∧
    ((check_inventory required ar).lookup ("helicopters") =
      some ⟨required.helicopters_required, 2 + 1 + 1,
        max 0 (required.helicopters_required - (2 + 1 + 1))⟩) := by
  cases ar with
  | none =>
      refine ⟨rfl, ?_, ?_, ?_, ?_, ?_, ?_, ?_, ?_⟩ <;>
        simp [check_inventory, DEPOT_INVENTORY, addCounts, bumpKey, gapFor, List.lookup]
  | some a =>
      refine ⟨rfl, ?_, ?_, ?_, ?_, ?_, ?_, ?_, ?_⟩ <;>
        simp [check_inventory, DEPOT_INVENTORY, addCounts, bumpKey, maxKey, gapFor,
          List.lookup]

/-! ## Resource demand estimator (`estimate_resources`, agent.py lines 193–317) -/

/-- Python `int(x)` truncation toward zero on an exact rational. -/
def pyInt (q : ℚ) : ℤ := if 0 ≤ q then ⌊q⌋ else ⌈q⌉

/-- One element of the list returned by `find_similar_scenarios`:
`{"scenario": …, "distance": …}`.  `estimate_resources` reads only the
scenario, so the distance type is a parameter. -/
structure SimilarityResult (α : Type) where
  scenario : Scenario
  distance : α
deriving DecidableEq, Repr

/-- The optional ML demand prediction (`self.demand_model.predict(scenario)`),
read with `.get(key, fallback)` per resource. -/
structure MLPrediction where
  medical_kits_required : Option ℚ
  food_packets_required : Option ℚ
  water_liters_required : Option ℚ
  shelter_kits_required : Option ℚ
deriving DecidableEq, Repr

/-- `estimate_resources` (agent.py lines 193–317).  `base_prediction` is the
ML model's output when `self.ml_models_loaded` holds and `predict` did not
raise, and `none` otherwise (the rule-based path).  The vehicle block
initialises `trucks = max(2, zones*2)` and `boats = drones = helicopters
= 0`, overrides them per disaster type, and then line 286 unconditionally
re-assigns `drones_needed = max(1, num_zones)` after all branches. -/
def estimate_resources {α : Type} (scenario : Scenario)
    (similar_scenarios : List (SimilarityResult α))
    (base_prediction : Option MLPrediction) : ResourceEstimate :=
  let severity := scenario.severity
  let population := scenario.population_affected
  let hospital_load :=
    if scenario.hospital_load > 1 then scenario.hospital_load / 100 else scenario.hospital_load
  let num_zones : ℤ := (scenario.zones_impacted.length : ℤ)
  let disaster_type := scenario.disaster_type
  let people_needing_care := pyInt ((population : ℚ) * (1 / 10) * (hospital_load / (1 / 2)))
  let medical_kits_needed := max 100 (people_needing_care.fdiv 10)
  let medical_kits_needed :=
    match base_prediction with
    | some bp =>
        pyInt ((7 / 10) * (bp.medical_kits_required.getD (medical_kits_needed : ℚ)) +
          (3 / 10) * (medical_kits_needed : ℚ))
    | none => medical_kits_needed
  let medical_kits_needed :=
    if similar_scenarios.isEmpty then medical_kits_needed
    else
      let avg_kits : ℚ :=
        (similar_scenarios.map fun s =>
          s.scenario.resources_deployed_medical_kits.getD 0).sum /
          (similar_scenarios.length : ℚ)
      if 0 < avg_kits then pyInt (((medical_kits_needed : ℚ) + avg_kits) / 2)
      else medical_kits_needed
  let boats_needed : ℤ := 0
  let drones_needed : ℤ := 0
  let trucks_needed : ℤ := max 2 (num_zones * 2)
  let helicopters_needed : ℤ := 0
  let vehicles : ℤ × ℤ × ℤ × ℤ :=
    if disaster_type = "flood" ∨ disaster_type = "cyclone" then
      let boats := max 1 (severity - 1) * num_zones
      let bh : ℤ × ℤ :=
        match scenario.disaster_specific.flood with
        | some flood_data =>
            let water_level := flood_data.water_level_m.getD (1 / 2)
            let boats := if water_level > 1 then boats + 2 else boats
            let helicopters : ℤ := if water_level > 3 / 2 then 1 else 0
            (boats, helicopters)
        | none => (boats, helicopters_needed)
      let helicopters := if 4 ≤ severity then max bh.2 1 else bh.2
      let helicopters := if 5 ≤ severity then max helicopters 2 else helicopters
      (bh.1, drones_needed, trucks_needed, helicopters)
    else if disaster_type = "earthquake" then
      let trucks := max 4 (num_zones * 3)
      let drones := max 2 (num_zones * 2)
      let helicopters : ℤ :=
        match scenario.disaster_specific.earthquake with
        | some eq_data =>
            let collapse := eq_data.building_collapse_ratio.getD (1 / 10)
            let h : ℤ := if collapse > 1 / 5 then 1 else 0
            if collapse > 3 / 10 then 2 else h
        | none => helicopters_needed
      (boats_needed, drones, trucks, helicopters)
    else if disaster_type = "heatwave" then
      (boats_needed, max 1 num_zones, max 3 (num_zones * 2), helicopters_needed)
    else
      (boats_needed, drones_needed, trucks_needed, helicopters_needed)
  let drones_needed := max 1 num_zones
  let fws : ℤ × ℤ × ℤ :=
    match base_prediction with
    | some bp =>
        (pyInt ((7 / 10) * (bp.food_packets_required.getD ((population.fdiv 10 : ℤ) : ℚ)) +
            (3 / 10) * ((population.fdiv 10 : ℤ) : ℚ)),
         pyInt ((7 / 10) * (bp.water_liters_required.getD ((population * 3 : ℤ) : ℚ)) +
            (3 / 10) * ((population * 3 : ℤ) : ℚ)),
         pyInt ((7 / 10) * (bp.shelter_kits_required.getD ((population.fdiv 100 : ℤ) : ℚ)) +
            (3 / 10) * ((population.fdiv 100 : ℤ) : ℚ)))
    | none => (population.fdiv 10, population * 3, population.fdiv 100)
  { medical_kits_required := medical_kits_needed
    food_packets_required := fws.1
    water_liters_required := fws.2.1
    shelter_kits_required := fws.2.2
    boats_required := vehicles.1
    drones_required := drones_needed
    trucks_required := vehicles.2.2.1
    helicopters_required := vehicles.2.2.2
    prediction_method := if base_prediction.isSome then "ml_hybrid" else "rule_based" }

/-- The earthquake scenario with one impacted zone used to exhibit the
drone-count divergence. -/
def quakeOneZone : Scenario :=
  { disaster_type := "earthquake"
    severity := 3
    population_affected := 20000
    hospital_load := 60
    zones_impacted := ["Central"]
    blocked_roads := []
    disaster_specific :=
      { DisasterSpecific.empty with earthquake := some ⟨some 6, some (1 / 10)⟩ }
    flood_depth_m := none
    wind_speed_kmh := none
    temperature_c := none
    resources_deployed_medical_kits := none }

/-- C1: on an earthquake scenario with one impacted zone the claimed formula
`drones_required = max(2, zone_count × 2)` would give `2`, but the code
returns `1 = max(1, zone_count)`: the unconditional re-assignment after the
disaster-type branches (agent.py line 286) overwrites the earthquake-specific
drone override of line 270, making it a dead store, while the
earthquake-specific truck override is preserved as claimed. -/
theorem estimate_resources_quake_drone_overwritten :
    (estimate_resources quakeOneZone ([] : List (SimilarityResult ℚ)) none).drones_required = 1 ∧
      (estimate_resources quakeOneZone ([] : List (SimilarityResult ℚ)) none).trucks_required = 4 ∧
      max 2 ((quakeOneZone.zones_impacted.length : ℤ) * 2) = 2 := by
  refine ⟨?_, ?_, ?_⟩ <;> with_unfolding_all rfl

/-- C9: a flood scenario whose `disaster_specific` flood data carries
`water_level_m > 1.5` always yields `helicopters_required ≥ 1`, for every
severity in `[1, 5]` (and in fact for every severity): the flood branch sets
helicopters to `1` when the water level exceeds `1.5` and later only raises
that value via `max`. -/
theorem estimate_resources_flood_high_water_helicopter {α : Type} (scenario : Scenario)
    (similar : List (SimilarityResult α)) (bp : Option MLPrediction)
    (fd : FloodData) (w : ℚ)
    (htype : scenario.disaster_type = "flood")
    (hfd : scenario.disaster_specific.flood = some fd)
    (hw : fd.water_level_m = some w)
    (hgt : (3 : ℚ) / 2 < w)
    (hsev1 : 1 ≤ scenario.severity) (hsev5 : scenario.severity ≤ 5) :
    1 ≤ (estimate_resources scenario similar bp).helicopters_required := by
  unfold estimate_resources
  simp [htype, hfd, hw, hgt]
  split <;> omega

/-- Witness for C9 at a concrete flood scenario with water level `1.7` m. -/
theorem estimate_resources_flood_high_water_helicopter_witness :
    1 ≤ (estimate_resources
      { disaster_type := "flood"
        severity := 2
        population_affected := 10000
        hospital_load := 40
        zones_impacted := ["North"]
        blocked_roads := []
        disaster_specific :=
          { DisasterSpecific.empty with flood := some ⟨some (17 / 10)⟩ }
        flood_depth_m := none
        wind_speed_kmh := none
        temperature_c := none
        resources_deployed_medical_kits := none }
      ([] : List (SimilarityResult ℚ)) none).helicopters_required :=
  estimate_resources_flood_high_water_helicopter _ _ none ⟨some (17 / 10)⟩ (17 / 10)
    rfl rfl rfl (by norm_num) (by norm_num) (by norm_num)

/-! ## Similarity matcher (`find_similar_scenarios`, agent.py lines 171–191)

The source sorts the candidate list with Python's stable `list.sort` keyed on
the rounded float distance; the distance computation
`round(self.calculate_scenario_similarity(scenario, hist), 3)` is float
trigonometry-free but float-valued, so it enters the embedding as an explicit
function parameter `dist`, and the theorems below hold for every `dist`. -/

/-- Ascending-distance comparison used by the stable sort. -/
def simLE (a b : SimilarityResult ℚ) : Bool := a.distance ≤ b.distance

/-- `same_type = [s for s in all_scenarios if s.get("disaster_type") == disaster_type]`. -/
def sameTypeOf (corpus : List Scenario) (scenario : Scenario) : List Scenario :=
  corpus.filter fun s => s.disaster_type == scenario.disaster_type

/-- The candidate list after the empty-filter fallback
(`if not same_type: same_type = all_scenarios`). -/
def candidatesOf (corpus : List Scenario) (scenario : Scenario) : List Scenario :=
  if (sameTypeOf corpus scenario).isEmpty then corpus else sameTypeOf corpus scenario

/-- The unsorted `similarities` list of `{"scenario": …, "distance": …}`
records. -/
def similaritiesOf (dist : Scenario → Scenario → ℚ) (corpus : List Scenario)
    (scenario : Scenario) : List (SimilarityResult ℚ) :=
  (candidatesOf corpus scenario).map fun hist => ⟨hist, dist scenario hist⟩

/-- `find_similar_scenarios` (agent.py lines 171–191): filter by disaster
type, fall back to the whole corpus when the filter is empty, attach
distances, sort stably ascending by distance, take the first `top_k`
(default 3). -/
def find_similar_scenarios (dist : Scenario → Scenario → ℚ) (corpus : List Scenario)
    (scenario : Scenario) (top_k : ℕ := 3) : List (SimilarityResult ℚ) :=
  ((similaritiesOf dist corpus scenario).mergeSort simLE).take top_k

/-- The behaviour C5 ascribes to `find_similar_scenarios` (with the
non-emptiness guarantee conditioned on `1 ≤ top_k`): every returned entry
carries a corpus scenario and its distance; when the corpus contains the
scenario's disaster type, only that type is returned; at most `top_k`
results, and at least one when `top_k ≥ 1`; results are sorted ascending by
distance; and the result is a prefix of a stable sort of the candidate
similarity list (a sorted permutation of it in which entries with equal
distance keep their corpus order, stated via filtering by each distance). -/
def FindSimilarPost (dist : Scenario → Scenario → ℚ) (corpus : List Scenario)
    (scenario : Scenario) (top_k : ℕ) : Prop :=
  let r := find_similar_scenarios dist corpus scenario top_k
  (∀ x ∈ r, x.scenario ∈ corpus ∧ x.distance = dist scenario x.scenario) ∧
  ((∃ h ∈ corpus, h.disaster_type = scenario.disaster_type) →
    ∀ x ∈ r, x.scenario.disaster_type = scenario.disaster_type) ∧
  r.length = min top_k (candidatesOf corpus scenario).length ∧
  (1 ≤ top_k → r ≠ []) ∧
  List.Pairwise (fun a b => a.distance ≤ b.distance) r ∧
  ∃ full, r = full.take top_k ∧
    full.Perm (similaritiesOf dist corpus scenario) ∧
    List.Pairwise (fun a b => a.distance ≤ b.distance) full ∧
    ∀ q : ℚ, full.filter (fun x => x.distance == q) =
      (similaritiesOf dist corpus scenario).filter (fun x => x.distance == q)

/-- `simLE` is transitive. -/
theorem simLE_trans (a b c : SimilarityResult ℚ) :
    simLE a b = true → simLE b c = true → simLE a c = true := by
  simp only [simLE, decide_eq_true_eq]
  exact le_trans

/-- `simLE` is total. -/
theorem simLE_total (a b : SimilarityResult ℚ) : (simLE a b || simLE b a) = true := by
  simp only [simLE, Bool.or_eq_true, decide_eq_true_eq]
  exact le_total a.distance b.distance

/-- Ties of the sort key survive the merge sort in their input order. -/
theorem mergeSort_filter_key (l : List (SimilarityResult ℚ)) (q : ℚ) :
    (l.mergeSort simLE).filter (fun x => x.distance == q) =
      l.filter (fun x => x.distance == q) := by
  have hpw : (l.filter (fun x => x.distance == q)).Pairwise (fun a b => simLE a b = true) := by
    apply List.pairwise_of_forall_mem_list
    intro a ha b hb
    have h1 := (List.mem_filter.1 ha).2
    have h2 := (List.mem_filter.1 hb).2
    simp only [beq_iff_eq] at h1 h2
    simp [simLE, h1, h2]
  have hsub : List.Sublist (l.filter (fun x => x.distance == q)) (l.mergeSort simLE) :=
    List.sublist_mergeSort simLE_trans simLE_total hpw (List.filter_sublist l)
  have hperm : ((l.mergeSort simLE).filter (fun x => x.distance == q)).Perm
      (l.filter (fun x => x.distance == q)) :=
    (List.mergeSort_perm l simLE).filter _
  have hsub2 : List.Sublist (l.filter (fun x => x.distance == q))
      ((l.mergeSort simLE).filter (fun x => x.distance == q)) := by
    have h := hsub.filter (fun x => x.distance == q)
    simpa only [List.filter_filter, Bool.and_self] using h
  exact (hsub2.eq_of_length hperm.length_eq.symm).symm

/-- C5 (amended): for every scenario, corpus, distance function and `top_k`,
`find_similar_scenarios` filters the corpus by disaster type, falls back to
the full corpus when the filter is empty, returns `min top_k candidates`
results — non-empty on a non-empty corpus whenever `top_k ≥ 1` — sorted in
ascending distance with ties preserving corpus order (stable sort). -/
theorem find_similar_scenarios_spec (dist : Scenario → Scenario → ℚ)
    (corpus : List Scenario) (scenario : Scenario) (top_k : ℕ)
    (hc : corpus ≠ []) : FindSimilarPost dist corpus scenario top_k := by
  have hcand : ∀ s ∈ candidatesOf corpus scenario, s ∈ corpus := by
    intro s hs
    unfold candidatesOf at hs
    split at hs
    · exact hs
    · exact List.mem_of_mem_filter hs
  have hfull : List.Pairwise (fun a b => a.distance ≤ b.distance)
      ((similaritiesOf dist corpus scenario).mergeSort simLE) := by
    have := List.sorted_mergeSort simLE_trans simLE_total
      (similaritiesOf dist corpus scenario)
    refine this.imp ?_
    intro a b hab
    simpa [simLE] using hab
  have hperm := List.mergeSort_perm (similaritiesOf dist corpus scenario) simLE
  refine ⟨?_, ?_, ?_, ?_, ?_, ?_⟩
  · intro x hx
    have hx' : x ∈ similaritiesOf dist corpus scenario :=
      hperm.mem_iff.1 (List.mem_of_mem_take hx)
    unfold similaritiesOf at hx'
    obtain ⟨hist, hh, rfl⟩ := List.mem_map.1 hx'
    exact ⟨hcand hist hh, rfl⟩
  · intro hex x hx
    have hx' : x ∈ similaritiesOf dist corpus scenario :=
      hperm.mem_iff.1 (List.mem_of_mem_take hx)
    unfold similaritiesOf at hx'
    obtain ⟨hist, hh, rfl⟩ := List.mem_map.1 hx'
    have hne : ¬(sameTypeOf corpus scenario).isEmpty := by
      obtain ⟨h, hmem, hty⟩ := hex
      have : h ∈ sameTypeOf corpus scenario := by
        unfold sameTypeOf
        refine List.mem_filter.2 ⟨hmem, ?_⟩
        simp [hty]
      simp [List.isEmpty_iff, List.eq_nil_iff_forall_not_mem]
      exact ⟨h, this⟩
    have hh' : hist ∈ sameTypeOf corpus scenario := by
      unfold candidatesOf at hh
      rw [if_neg hne] at hh
      exact hh
    have := (List.mem_filter.1 hh').2
    simpa using this
  · unfold find_similar_scenarios
    rw [List.length_take, hperm.length_eq]
    unfold similaritiesOf
    rw [List.length_map]
  · intro hk
    unfold find_similar_scenarios
    have hlen : 0 < (candidatesOf corpus scenario).length := by
      unfold candidatesOf
      split
      · exact List.length_pos.2 hc
      · rename_i hne
        have : ¬ sameTypeOf corpus scenario = [] := by
          intro h
          exact hne (by simp [h])
        exact List.length_pos.2 this
    intro hemp
    have := congrArg List.length hemp
    rw [List.length_take, hperm.length_eq] at this
    unfold similaritiesOf at this
    rw [List.length_map] at this
    simp only [List.length_nil] at this
    omega
  · exact hfull.sublist (List.take_sublist _ _)
  · exact ⟨(similaritiesOf dist corpus scenario).mergeSort simLE, rfl, hperm, hfull,
      fun q => mergeSort_filter_key _ q⟩

/-- Witness for C5 (amended) at a concrete two-element corpus. -/
theorem find_similar_scenarios_spec_witness :
    FindSimilarPost (fun _ _ => 0) [quakeOneZone, quakeOneZone] quakeOneZone 3 :=
  find_similar_scenarios_spec (fun _ _ => 0) [quakeOneZone, quakeOneZone] quakeOneZone 3
    (by simp)

/-- C5 counterexample: with `top_k = 0` the function returns the empty list
even on a non-empty corpus, contradicting the claim that it "never … returns
an empty result on a non-empty corpus" for every `top_k`. -/
theorem find_similar_scenarios_topk_zero_empty :
    find_similar_scenarios (fun _ _ => 0) [quakeOneZone] quakeOneZone 0 = [] ∧
      ([quakeOneZone] : List Scenario) ≠ [] :=
  ⟨rfl, by simp⟩

/-! ## Route planner (`routing.py`, `ROAD_NETWORK` from scenarios.py)

`a_star_route` uses a float heuristic computed by `haversine_distance` with
`math` trigonometry; the search loop is embedded with the heuristic as an
explicit function parameter `hf`, so every theorem about the loop holds for
the source's heuristic as a special case.  The `heapq` frontier pops the
least tuple `(f_score, node_id, path, total_cost, roads)` in Python's
lexicographic tuple order; two distinct entries always differ within the
first three components, so the pop is the unique minimum under
`(f, node, path)`. -/

/-- One record of `ROAD_NETWORK["edges"]` (`src`/`dst` stand for the source's
`from`/`to` keys, which are not valid Lean field names). -/
structure RoadEdge where
  src : String
  dst : String
  road : String
  distance : ℚ
  time_min : ℚ
deriving DecidableEq, Repr

/-- `ROAD_NETWORK["nodes"]`: name and coordinates (scenarios.py 416–435). -/
def roadNetworkNodes : List (String × ℚ × ℚ) :=
  [("Central_Depot", 130827 / 10000, 802707 / 10000),
   ("Anna_Salai_Node", 1306 / 100, 8025 / 100),
   ("OMR_Node", 1295 / 100, 8024 / 100),
   ("ECR_Node", 1298 / 100, 8028 / 100),
   ("Mount_Road_Node", 1304 / 100, 8026 / 100),
   ("Marina_Node", 1305 / 100, 8029 / 100),
   ("Velachery_Node", 1298 / 100, 8022 / 100),
   ("Ambattur_Node", 131143 / 10000, 801548 / 10000),
   ("Tambaram_Node", 129249 / 10000, 801 / 10),
   ("Zone_North", 1315 / 100, 802 / 10),
   ("Zone_South", 129 / 10, 8015 / 100),
   ("Zone_East", 1305 / 100, 803 / 10),
   ("Zone_West", 1305 / 100, 801 / 10),
   ("Zone_Central", 1308 / 100, 8027 / 100),
   ("Link_Road_East", 1306 / 100, 8028 / 100),
   ("Link_Road_West", 1306 / 100, 8015 / 100),
   ("Link_Road_North", 1312 / 100, 8022 / 100),
   ("Link_Road_South", 1295 / 100, 8018 / 100)]

/-- `ROAD_NETWORK["edges"]` (scenarios.py 436–464). -/
def roadNetworkEdges : List RoadEdge :=
  [⟨"Central_Depot", "Anna_Salai_Node", "Anna_Salai", 7 / 2, 10⟩,
   ⟨"Central_Depot", "Zone_Central", "Central_Link", 1, 5⟩,
   ⟨"Anna_Salai_Node", "Mount_Road_Node", "Anna_Salai", 5 / 2, 8⟩,
   ⟨"Anna_Salai_Node", "Zone_Central", "Link_1", 2, 6⟩,
   ⟨"Mount_Road_Node", "OMR_Node", "Mount_Road", 4, 12⟩,
   ⟨"Mount_Road_Node", "Velachery_Node", "Mount_Road", 3, 9⟩,
   ⟨"OMR_Node", "Zone_South", "OMR", 5, 15⟩,
   ⟨"OMR_Node", "Velachery_Node", "OMR", 7 / 2, 10⟩,
   ⟨"OMR_Node", "ECR_Node", "Link_2", 2, 6⟩,
   ⟨"ECR_Node", "Zone_East", "ECR", 4, 12⟩,
   ⟨"ECR_Node", "Marina_Node", "ECR", 3, 9⟩,
   ⟨"Marina_Node", "Zone_East", "Marina", 5 / 2, 8⟩,
   ⟨"Marina_Node", "Zone_Central", "Link_3", 2, 6⟩,
   ⟨"Central_Depot", "Link_Road_East", "Inner_Ring", 3 / 2, 5⟩,
   ⟨"Link_Road_East", "Zone_East", "Inner_Ring", 2, 7⟩,
   ⟨"Central_Depot", "Link_Road_West", "Inner_Ring", 2, 6⟩,
   ⟨"Link_Road_West", "Zone_West", "Inner_Ring", 5 / 2, 8⟩,
   ⟨"Central_Depot", "Link_Road_North", "NH_48", 4, 12⟩,
   ⟨"Link_Road_North", "Zone_North", "NH_48", 3, 9⟩,
   ⟨"Link_Road_North", "Ambattur_Node", "NH_48", 2, 6⟩,
   ⟨"Ambattur_Node", "Zone_North", "Local_1", 4, 12⟩,
   ⟨"Velachery_Node", "Link_Road_South", "Velachery_Main", 3, 9⟩,
   ⟨"Link_Road_South", "Zone_South", "Local_2", 7 / 2, 10⟩,
   ⟨"Link_Road_South", "Tambaram_Node", "GST_Road", 4, 12⟩,
   ⟨"Tambaram_Node", "Zone_South", "Local_3", 3, 9⟩,
   ⟨"Zone_Central", "Link_Road_East", "Link_4", 3 / 2, 5⟩,
   ⟨"Zone_Central", "Link_Road_West", "Link_5", 2, 6⟩]

/-- The node-name key set of `ROAD_NETWORK["nodes"]`. -/
def nodeNames : List String := roadNetworkNodes.map Prod.fst

/-- `nodes[n]["coordinates"]` (total, with a zero default that the algorithm
never reaches: every path node is a graph node). -/
def nodeCoord (n : String) : ℚ × ℚ := (roadNetworkNodes.lookup n).getD (0, 0)

/-- One adjacency record `{"to", "road", "distance", "time"}` of the graph
built by `build_graph`; `toNode` stands for the source's `to` key, which is
not a valid Lean field name. -/
structure Nbr where
  toNode : String
  road : String
  distance : ℚ
  time : ℚ
deriving DecidableEq, Repr

/-- The graph dictionary with every node mapped to an empty adjacency list. -/
def emptyGraph : List (String × List Nbr) := roadNetworkNodes.map fun n => (n.1, [])

/-- Append an adjacency record to the list of key `k`. -/
def pushNbr (g : List (String × List Nbr)) (k : String) (x : Nbr) :
    List (String × List Nbr) :=
  g.map fun kv => if kv.1 = k then (kv.1, kv.2 ++ [x]) else kv

/-- `build_graph` (routing.py lines 23–53): initialise every node, then for
every edge whose road is not blocked append the forward and the backward
adjacency record. -/
def build_graph (blocked_roads : List String) : List (String × List Nbr) :=
  roadNetworkEdges.foldl
    (fun g e =>
      if e.road ∈ blocked_roads then g
      else
        pushNbr (pushNbr g e.src ⟨e.dst, e.road, e.distance, e.time_min⟩)
          e.dst ⟨e.src, e.road, e.distance, e.time_min⟩)
    emptyGraph

/-- `graph.get(current, [])`. -/
def adj (g : List (String × List Nbr)) (n : String) : List Nbr :=
  (g.lookup n).getD []

/-- One frontier entry `(f_score, node_id, path, total_cost, roads)`. -/
structure QEntry where
  f : ℚ
  node : String
  path : List String
  cost : ℚ
  roads : List Nbr
deriving DecidableEq, Repr

/-- Python lexicographic order on lists of strings. -/
def listLtString : List String → List String → Bool
  | [], [] => false
  | [], _ :: _ => true
  | _ :: _, [] => false
  | x :: xs, y :: ys => if x < y then true else if y < x then false else listLtString xs ys

/-- Python tuple order on frontier entries restricted to the first three
components; distinct entries stored by the loop always differ there. -/
def entryLt (a b : QEntry) : Bool :=
  if a.f < b.f then true
  else if b.f < a.f then false
  else if a.node < b.node then true
  else if b.node < a.node then false
  else listLtString a.path b.path

/-- `heapq.heappop`: return the least entry and the remaining entries. -/
def popMin : List QEntry → Option (QEntry × List QEntry)
  | [] => none
  | x :: xs =>
    match popMin xs with
    | none => some (x, [])
    | some (m, rest) => if entryLt m x then some (m, x :: rest) else some (x, xs)

/-- The route dictionary returned by `a_star_route`. -/
structure RouteResult where
  path : List String
  roads_used : List String
  total_distance_km : ℚ
  total_time_min : ℚ
  path_coordinates : List (ℚ × ℚ)
deriving DecidableEq, Repr

/-- Round half to even to an integer (Python `round` on an exact value; on
this network every rounded total is already exact, see
`roadNetworkEdges_grid`). -/
def roundHalfEven (q : ℚ) : ℤ :=
  let f := ⌊q⌋
  let r := q - (f : ℚ)
  if r < 1 / 2 then f
  else if 1 / 2 < r then f + 1
  else if f % 2 = 0 then f else f + 1

/-- Python `round(q, d)` on an exact rational. -/
def roundTo (d : ℕ) (q : ℚ) : ℚ := ((roundHalfEven (q * 10 ^ d) : ℤ) : ℚ) / 10 ^ d

/-- `total_distance`: sum of the `distance` attributes of the traversed
edges. -/
def sumDistance (roads : List Nbr) : ℚ := (roads.map fun r => r.distance).sum

/-- `total_time`: sum of the `time` attributes of the traversed edges. -/
def sumTime (roads : List Nbr) : ℚ := (roads.map fun r => r.time).sum

/-- The cost increment and accumulated cost of the search, per
`optimize_for`. -/
def costOf (optimize_for : String) (roads : List Nbr) : ℚ :=
  if optimize_for = "time" then sumTime roads else sumDistance roads

/-- `g_scores[k] = v` (insert or update). -/
def setScore (gs : List (String × ℚ)) (k : String) (v : ℚ) : List (String × ℚ) :=
  if (gs.lookup k).isSome then gs.map fun kv => if kv.1 = k then (kv.1, v) else kv
  else gs ++ [(k, v)]

/-- The frontier entry pushed when relaxing edge `nb` out of entry `e`. -/
def extendEntry (optimize_for : String) (hf : String → ℚ) (e : QEntry) (nb : Nbr) : QEntry :=
  let new_cost := e.cost + (if optimize_for = "time" then nb.time else nb.distance)
  ⟨new_cost + hf nb.toNode, nb.toNode, e.path ++ [nb.toNode], new_cost, e.roads ++ [nb]⟩

/-- The body of the neighbour loop (routing.py lines 114–129): skip closed
neighbours, compute the tentative cost, and push exactly when the node has no
recorded g-score or the tentative cost improves it. -/
def relaxNbr (optimize_for : String) (hf : String → ℚ) (closed_set : List String)
    (e : QEntry) (acc : List QEntry × List (String × ℚ)) (nb : Nbr) :
    List QEntry × List (String × ℚ) :=
  if nb.toNode ∈ closed_set then acc
  else
    let new_cost := e.cost + (if optimize_for = "time" then nb.time else nb.distance)
    let better :=
      match acc.2.lookup nb.toNode with
      | none => true
      | some old => decide (new_cost < old)
    if better then
      (acc.1 ++ [extendEntry optimize_for hf e nb], setScore acc.2 nb.toNode new_cost)
    else acc

/-- The `while open_set:` loop of `a_star_route` (routing.py lines 90–131),
with an explicit fuel bound; the source loop terminates on this finite graph
well inside the bound, and exhausting the fuel yields the same `None` as an
emptied frontier. -/
def aStarLoop (goal optimize_for : String) (hf : String → ℚ)
    (g : List (String × List Nbr)) :
    ℕ → List QEntry → List (String × ℚ) → List String → Option RouteResult
  | 0, _, _, _ => none
  | fuel + 1, open_set, g_scores, closed_set =>
    match popMin open_set with
    | none => none
    | some (e, rest) =>
      if e.node = goal then
        some { path := e.path
               roads_used := e.roads.map fun r => r.road
               total_distance_km := roundTo 2 (sumDistance e.roads)
               total_time_min := roundTo 1 (sumTime e.roads)
               path_coordinates := e.path.map nodeCoord }
      else if e.node ∈ closed_set then
        aStarLoop goal optimize_for hf g fuel rest g_scores closed_set
      else
        let closed' := e.node :: closed_set
        let step := (adj g e.node).foldl (relaxNbr optimize_for hf closed' e) (rest, g_scores)
        aStarLoop goal optimize_for hf g fuel step.1 step.2 closed'

/-- Fuel bound for the embedded loop. -/
def astarFuel : ℕ := 1000

/-- `a_star_route` (routing.py lines 55–131), with the heuristic as a
parameter.  Returns `none` when start or goal is not a graph node, otherwise
runs the frontier loop from the start entry. -/
def a_star_route (hf : String → ℚ) (start goal : String) (blocked_roads : List String)
    (optimize_for : String) : Option RouteResult :=
  if start ∈ nodeNames ∧ goal ∈ nodeNames then
    aStarLoop goal optimize_for hf (build_graph blocked_roads) astarFuel
      [⟨hf start, start, [start], 0, []⟩] [(start, 0)] []
  else none

/-! ### Soundness of the frontier loop -/

/-- The last node of the path `u :: tail`. -/
def chainLast (u : String) (tail : List String) : String := tail.getLastD u

/-- `isChain g u tail roads`: traversing the adjacency records `roads` from
node `u` visits exactly the nodes of `tail`, each record being an adjacency
of the node it leaves. -/
def isChain (g : List (String × List Nbr)) : String → List String → List Nbr → Prop
  | _, [], [] => True
  | u, v :: tail, nb :: roads => nb ∈ adj g u ∧ nb.toNode = v ∧ isChain g v tail roads
  | _, [], _ :: _ => False
  | _, _ :: _, [] => False

/-- Appending the destination of one more adjacency record keeps the path
ending at that destination. -/
theorem chainLast_snoc (u w : String) (tail : List String) :
    chainLast u (tail ++ [w]) = w := by
  simp [chainLast]

/-- A chain extends by one adjacency record of its last node. -/
theorem isChain_snoc (g : List (String × List Nbr)) :
    ∀ (u : String) (tail : List String) (roads : List Nbr) (nb : Nbr),
      isChain g u tail roads → nb ∈ adj g (chainLast u tail) →
      isChain g u (tail ++ [nb.toNode]) (roads ++ [nb]) := by
  intro u tail
  induction tail generalizing u with
  | nil =>
      intro roads nb h hm
      cases roads with
      | nil =>
          simp only [chainLast, List.getLastD_nil] at hm
          exact ⟨hm, rfl, trivial⟩
      | cons r rs => exact absurd h (by simp [isChain])
  | cons v tl ih =>
      intro roads nb h hm
      cases roads with
      | nil => exact absurd h (by simp [isChain])
      | cons r rs =>
          obtain ⟨h1, h2, h3⟩ := h
          refine ⟨h1, h2, ih v rs nb h3 ?_⟩
          simpa only [chainLast, List.getLastD_cons] using hm

/-- Cost of a chain extended by one record. -/
theorem costOf_snoc (o : String) (roads : List Nbr) (nb : Nbr) :
    costOf o (roads ++ [nb]) = costOf o roads +
      (if o = "time" then nb.time else nb.distance) := by
  unfold costOf sumTime sumDistance
  split <;> simp

/-- Invariant of every frontier entry: its path starts at the start node, its
roads form a chain of the graph along that path, its node is the path's last
node, and its cost is the accumulated optimisation cost of its roads. -/
def EntryInv (g : List (String × List Nbr)) (start optimize_for : String)
    (e : QEntry) : Prop :=
  ∃ tail, e.path = start :: tail ∧ isChain g start tail e.roads ∧
    e.node = chainLast start tail ∧ e.cost = costOf optimize_for e.roads

/-- Relaxing an edge out of an invariant entry yields an invariant entry. -/
theorem EntryInv_extend (g : List (String × List Nbr)) (start o : String)
    (hf : String → ℚ) (e : QEntry) (nb : Nbr)
    (h : EntryInv g start o e) (hm : nb ∈ adj g e.node) :
    EntryInv g start o (extendEntry o hf e nb) := by
  obtain ⟨tail, hp, hc, hn, hcost⟩ := h
  refine ⟨tail ++ [nb.toNode], ?_, ?_, ?_, ?_⟩
  · simp [extendEntry, hp]
  · exact isChain_snoc g start tail e.roads nb hc (hn ▸ hm)
  · simp [extendEntry, chainLast_snoc]
  · simp [extendEntry, hcost, costOf_snoc]

/-- `popMin` returns a member of the list, and the remainder consists of
members of the list. -/
theorem popMin_mem :
    ∀ {l : List QEntry} {e : QEntry} {rest : List QEntry},
      popMin l = some (e, rest) → e ∈ l ∧ ∀ x ∈ rest, x ∈ l := by
  intro l
  induction l with
  | nil => intro e rest h; simp [popMin] at h
  | cons x xs ih =>
      intro e rest h
      rw [popMin] at h
      cases hm : popMin xs with
      | none =>
          rw [hm] at h
          dsimp only at h
          obtain ⟨rfl, rfl⟩ := Prod.mk.injEq .. ▸ Option.some.injEq .. ▸ h
          exact ⟨List.mem_cons_self x xs, by simp⟩
      | some pr =>
          obtain ⟨m, r2⟩ := pr
          rw [hm] at h
          dsimp only at h
          obtain ⟨hmem, hsub⟩ := ih hm
          by_cases hlt : entryLt m x = true
          · rw [if_pos hlt] at h
            obtain ⟨rfl, rfl⟩ := Prod.mk.injEq .. ▸ Option.some.injEq .. ▸ h
            refine ⟨List.mem_cons_of_mem x hmem, ?_⟩
            intro y hy
            rcases List.mem_cons.1 hy with rfl | hy
            · exact List.mem_cons_self y xs
            · exact List.mem_cons_of_mem x (hsub y hy)
          · rw [if_neg hlt] at h
            obtain ⟨rfl, rfl⟩ := Prod.mk.injEq .. ▸ Option.some.injEq .. ▸ h
            exact ⟨List.mem_cons_self x xs, fun y hy => List.mem_cons_of_mem x hy⟩

/-- Every entry produced by the neighbour fold is either carried over from
the accumulator or the relaxation of one of the folded neighbours. -/
theorem mem_relax_fold (o : String) (hf : String → ℚ) (closed_set : List String)
    (e : QEntry) :
    ∀ (nbs : List Nbr) (acc : List QEntry × List (String × ℚ)) (x : QEntry),
      x ∈ (nbs.foldl (relaxNbr o hf closed_set e) acc).1 →
      x ∈ acc.1 ∨ ∃ nb ∈ nbs, x = extendEntry o hf e nb := by
  intro nbs
  induction nbs with
  | nil => intro acc x hx; exact Or.inl hx
  | cons nb nbs ih =>
      intro acc x hx
      rw [List.foldl_cons] at hx
      rcases ih _ x hx with h | ⟨nb', hnb', rfl⟩
      · unfold relaxNbr at h
        split at h
        · exact Or.inl h
        · rw [apply_ite Prod.fst] at h
          dsimp only at h
          repeat' split at h
          all_goals try exact Or.inl h
          all_goals
            rcases List.mem_append.1 h with h | h
            · exact Or.inl h
            · exact Or.inr ⟨nb, List.mem_cons_self nb nbs, List.mem_singleton.1 h⟩
      · exact Or.inr ⟨nb', List.mem_cons_of_mem nb hnb', rfl⟩

/-- Soundness of the frontier loop: whatever heuristic is used, a returned
route is reconstructed from a frontier entry whose path is a chain of the
graph from the start node ending at the goal, whose listed roads are the
chain's road names, and whose totals are the rounded sums of the chain's
distance and time attributes. -/
theorem aStarLoop_sound (goal o : String) (hf : String → ℚ)
    (g : List (String × List Nbr)) (start : String) :
    ∀ (fuel : ℕ) (open_set : List QEntry) (gs : List (String × ℚ))
      (closed_set : List String),
      (∀ e ∈ open_set, EntryInv g start o e) →
      ∀ r, aStarLoop goal o hf g fuel open_set gs closed_set = some r →
        ∃ tail roads, r.path = start :: tail ∧ isChain g start tail roads ∧
          chainLast start tail = goal ∧
          r.roads_used = roads.map (fun nb => nb.road) ∧
          r.total_distance_km = roundTo 2 (sumDistance roads) ∧
          r.total_time_min = roundTo 1 (sumTime roads) ∧
          r.path_coordinates = (start :: tail).map nodeCoord := by
  intro fuel
  induction fuel with
  | zero =>
      intro _ _ _ _ r h
      simp [aStarLoop] at h
  | succ fuel ih =>
      intro open_set gs closed_set hInv r h
      rw [aStarLoop] at h
      cases hpop : popMin open_set with
      | none => rw [hpop] at h; simp at h
      | some pr =>
          obtain ⟨e, rest⟩ := pr
          rw [hpop] at h
          obtain ⟨hmem, hrest⟩ := popMin_mem hpop
          have hEe := hInv e hmem
          dsimp only at h
          by_cases hg : e.node = goal
          · rw [if_pos hg] at h
            obtain ⟨tail, hp, hc, hn, _⟩ := hEe
            obtain rfl := Option.some.injEq .. ▸ h
            exact ⟨tail, e.roads, by simpa using hp, hc, by rw [← hn, hg], rfl, rfl, rfl,
              by simpa using congrArg (List.map nodeCoord) hp⟩
          · rw [if_neg hg] at h
            by_cases hcl : e.node ∈ closed_set
            · rw [if_pos hcl] at h
              exact ih rest gs closed_set (fun x hx => hInv x (hrest x hx)) r h
            · rw [if_neg hcl] at h
              refine ih _ _ _ ?_ r h
              intro x hx
              rcases mem_relax_fold o hf (e.node :: closed_set) e (adj g e.node)
                  (rest, gs) x hx with hx' | ⟨nb, hnb, rfl⟩
              · exact hInv x (hrest x hx')
              · exact EntryInv_extend g start o hf e nb hEe hnb

/-! ### Provenance of adjacency records and exactness of the rounded totals -/

/-- An adjacency record of the built graph arises from an unblocked network
edge, traversed forward or backward. -/
def NbrOK (blocked : List String) (u : String) (nb : Nbr) : Prop :=
  ∃ ed ∈ roadNetworkEdges, ed.road ∉ blocked ∧
    ((u = ed.src ∧ nb = ⟨ed.dst, ed.road, ed.distance, ed.time_min⟩) ∨
     (u = ed.dst ∧ nb = ⟨ed.src, ed.road, ed.distance, ed.time_min⟩))

/-- The initial graph has empty adjacency everywhere. -/
theorem adj_emptyGraph (u : String) : adj emptyGraph u = [] := by
  unfold adj emptyGraph
  generalize roadNetworkNodes = l
  induction l with
  | nil => rfl
  | cons x xs ih =>
      rw [List.map_cons, List.lookup]
      split
      · rfl
      · exact ih

/-- Membership after `pushNbr`: either an old record, or the pushed record at
the pushed key. -/
theorem mem_adj_pushNbr (g : List (String × List Nbr)) (k : String) (x nb : Nbr)
    (u : String) (h : nb ∈ adj (pushNbr g k x) u) :
    nb ∈ adj g u ∨ (u = k ∧ nb = x) := by
  unfold adj pushNbr at h
  unfold adj
  induction g with
  | nil => simp [List.lookup] at h
  | cons kv g ih =>
      rw [List.map_cons] at h
      by_cases hk : kv.1 = k
      · rw [if_pos hk] at h
        rw [List.lookup] at h ⊢
        cases hu : u == kv.1 with
        | true =>
            rw [hu] at h
            dsimp only at h ⊢
            rcases List.mem_append.1 h with h | h
            · exact Or.inl h
            · exact Or.inr ⟨hk ▸ eq_of_beq hu, List.mem_singleton.1 h⟩
        | false =>
            rw [hu] at h
            dsimp only at h ⊢
            exact ih h
      · rw [if_neg hk] at h
        rw [List.lookup] at h ⊢
        cases hu : u == kv.1 with
        | true =>
            rw [hu] at h
            dsimp only at h ⊢
            exact Or.inl h
        | false =>
            rw [hu] at h
            dsimp only at h ⊢
            exact ih h

/-- Every adjacency record of the graph built with a blocked-road set comes
from an unblocked network edge. -/
theorem build_graph_adj (blocked : List String) (u : String) (nb : Nbr)
    (h : nb ∈ adj (build_graph blocked) u) : NbrOK blocked u nb := by
  have aux : ∀ (eds : List RoadEdge) (g : List (String × List Nbr)),
      (∀ u nb, nb ∈ adj g u → NbrOK blocked u nb) →
      (∀ ed ∈ eds, ed ∈ roadNetworkEdges) →
      ∀ u nb,
        nb ∈ adj (eds.foldl
          (fun g e =>
            if e.road ∈ blocked then g
            else pushNbr (pushNbr g e.src ⟨e.dst, e.road, e.distance, e.time_min⟩)
              e.dst ⟨e.src, e.road, e.distance, e.time_min⟩) g) u →
        NbrOK blocked u nb := by
    intro eds
    induction eds with
    | nil => intro g hg _ u nb h; exact hg u nb h
    | cons ed eds ih =>
        intro g hg hmem u nb h
        rw [List.foldl_cons] at h
        refine ih _ ?_ (fun e he => hmem e (List.mem_cons_of_mem ed he)) u nb h
        intro v nb' hv
        by_cases hb : ed.road ∈ blocked
        · rw [if_pos hb] at hv
          exact hg v nb' hv
        · rw [if_neg hb] at hv
          rcases mem_adj_pushNbr _ _ _ _ _ hv with hv' | ⟨rfl, rfl⟩
          · rcases mem_adj_pushNbr _ _ _ _ _ hv' with hv'' | ⟨rfl, rfl⟩
            · exact hg v nb' hv''
            · exact ⟨ed, hmem ed (List.mem_cons_self ed eds), hb, Or.inl ⟨rfl, rfl⟩⟩
          · exact ⟨ed, hmem ed (List.mem_cons_self ed eds), hb, Or.inr ⟨rfl, rfl⟩⟩
  refine aux roadNetworkEdges emptyGraph ?_ (fun _ he => he) u nb h
  intro v nb' hv
  rw [adj_emptyGraph] at hv
  exact absurd hv (List.not_mem_nil nb')

/-- Every road record of a chain is an adjacency record of some node. -/
theorem isChain_roads (g : List (String × List Nbr)) :
    ∀ (u : String) (tail : List String) (roads : List Nbr),
      isChain g u tail roads → ∀ nb ∈ roads, ∃ v, nb ∈ adj g v := by
  intro u tail
  induction tail generalizing u with
  | nil =>
      intro roads h nb hnb
      cases roads with
      | nil => exact absurd hnb (List.not_mem_nil nb)
      | cons r rs => exact absurd h (by simp [isChain])
  | cons v tl ih =>
      intro roads h nb hnb
      cases roads with
      | nil => exact absurd h (by simp [isChain])
      | cons r rs =>
          obtain ⟨h1, _, h3⟩ := h
          rcases List.mem_cons.1 hnb with rfl | hnb
          · exact ⟨u, h1⟩
          · exact ih v rs h3 nb hnb

/-- Every network edge's distance is an integer number of hundredths and its
time an integer number of tenths (in fact the distances are multiples of half
a kilometre and the times whole minutes). -/
theorem roadNetworkEdges_grid :
    (roadNetworkEdges.all fun ed =>
      ((ed.distance * 100).den == 1) && ((ed.time_min * 10).den == 1)) = true := by
  with_unfolding_all rfl

/-- A sum of rationals, each an integer multiple of `1 / c`, is an integer
multiple of `1 / c`. -/
theorem sum_grid (c : ℚ) (f : Nbr → ℚ) :
    ∀ (l : List Nbr), (∀ x ∈ l, ∃ n : ℤ, f x * c = (n : ℚ)) →
      ∃ n : ℤ, (l.map f).sum * c = (n : ℚ) := by
  intro l
  induction l with
  | nil => intro _; exact ⟨0, by simp⟩
  | cons x xs ih =>
      intro h
      obtain ⟨n1, hn1⟩ := h x (List.mem_cons_self x xs)
      obtain ⟨n2, hn2⟩ := ih fun y hy => h y (List.mem_cons_of_mem x hy)
      refine ⟨n1 + n2, ?_⟩
      rw [List.map_cons, List.sum_cons, add_mul, hn1, hn2]
      push_cast
      ring

/-- Rounding an integer value is the identity. -/
theorem roundHalfEven_int (n : ℤ) : roundHalfEven (n : ℚ) = n := by
  unfold roundHalfEven
  rw [Int.floor_intCast]
  rw [if_pos]
  rw [sub_self]
  norm_num

/-- `round(q, d)` is the identity on values that are exact in `d` decimal
digits. -/
theorem roundTo_eq_self (d : ℕ) (q : ℚ) (n : ℤ) (h : q * 10 ^ d = (n : ℚ)) :
    roundTo d q = q := by
  unfold roundTo
  rw [h, roundHalfEven_int, ← h]
  field_simp

/-- C8: `a_star_route` returns an absent result whenever the start or goal
node is missing from the graph (and, by the validity of every returned
route, whenever no unblocked path exists — a returned route always exhibits
such a path); and every returned route's `total_time_min` and
`total_distance_km` equal the exact sums of the `time` and `distance`
attributes of the constituent edges of the returned path. -/
theorem a_star_route_spec (hf : String → ℚ) (start goal : String)
    (blocked : List String) (optimize_for : String) :
    ((start ∉ nodeNames ∨ goal ∉ nodeNames) →
      a_star_route hf start goal blocked optimize_for = none) ∧
    (∀ r, a_star_route hf start goal blocked optimize_for = some r →
      ∃ tail roads, r.path = start :: tail ∧
        isChain (build_graph blocked) start tail roads ∧
        chainLast start tail = goal ∧
        r.roads_used = roads.map (fun nb => nb.road) ∧
        r.total_distance_km = sumDistance roads ∧
        r.total_time_min = sumTime roads) := by
  constructor
  · intro h
    unfold a_star_route
    rw [if_neg (by tauto)]
  · intro r h
    unfold a_star_route at h
    by_cases hn : start ∈ nodeNames ∧ goal ∈ nodeNames
    swap
    · rw [if_neg hn] at h; exact absurd h (by simp)
    rw [if_pos hn] at h
    have hinit : ∀ e ∈ [(⟨hf start, start, [start], 0, []⟩ : QEntry)],
        EntryInv (build_graph blocked) start optimize_for e := by
      intro e he
      rcases List.mem_singleton.1 he with rfl
      exact ⟨[], rfl, trivial, rfl, by simp [costOf, sumTime, sumDistance]⟩
    obtain ⟨tail, roads, h1, h2, h3, h4, h5, h6, _⟩ :=
      aStarLoop_sound goal optimize_for hf (build_graph blocked) start astarFuel
        _ _ _ hinit r h
    have hprov : ∀ nb ∈ roads,
        (∃ n : ℤ, nb.distance * 100 = (n : ℚ)) ∧ (∃ n : ℤ, nb.time * 10 = (n : ℚ)) := by
      intro nb hnb
      obtain ⟨v, hv⟩ := isChain_roads _ start tail roads h2 nb hnb
      obtain ⟨ed, hed, _, hcase⟩ := build_graph_adj blocked v nb hv
      have hgrid := List.all_eq_true.1 roadNetworkEdges_grid ed hed
      rw [Bool.and_eq_true, beq_iff_eq, beq_iff_eq] at hgrid
      obtain ⟨hd, ht⟩ := hgrid
      have hdist : nb.distance = ed.distance := by
        rcases hcase with ⟨_, rfl⟩ | ⟨_, rfl⟩ <;> rfl
      have htime : nb.time = ed.time_min := by
        rcases hcase with ⟨_, rfl⟩ | ⟨_, rfl⟩ <;> rfl
      constructor
      · exact ⟨(ed.distance * 100).num, by rw [hdist]; exact ((Rat.den_eq_one_iff _).1 hd).symm⟩
      · exact ⟨(ed.time_min * 10).num, by rw [htime]; exact ((Rat.den_eq_one_iff _).1 ht).symm⟩
    obtain ⟨nd, hnd⟩ := sum_grid 100 (fun nb => nb.distance) roads fun x hx => (hprov x hx).1
    obtain ⟨nt, hnt⟩ := sum_grid 10 (fun nb => nb.time) roads fun x hx => (hprov x hx).2
    refine ⟨tail, roads, h1, h2, h3, h4, ?_, ?_⟩
    · rw [h5]
      exact roundTo_eq_self 2 _ nd (by simpa [sumDistance] using hnd)
    · rw [h6]
      exact roundTo_eq_self 1 _ nt (by simpa [sumTime] using hnt)

/-- The route returned for `Central_Depot → Zone_East` with no blocked roads
under a zero heuristic. -/
def routeEastW : RouteResult :=
  ⟨["Central_Depot", "Link_Road_East", "Zone_East"], ["Inner_Ring", "Inner_Ring"], 7 / 2, 12,
   [(130827 / 10000, 802707 / 10000), (653 / 50, 2007 / 25), (261 / 20, 803 / 10)]⟩

set_option maxRecDepth 10000 in
/-- Witness for C8: an absent start node yields `none`, and the concrete
route returned for `Central_Depot → Zone_East` has totals equal to the edge
sums of its path. -/
theorem a_star_route_spec_witness :
    (a_star_route (fun _ => 0) ("Moon_Base") ("Zone_East") [] ("time") = none) ∧
    (∃ tail roads, routeEastW.path = "Central_Depot" :: tail ∧
      isChain (build_graph []) ("Central_Depot") tail roads ∧
      chainLast ("Central_Depot") tail = "Zone_East" ∧
      routeEastW.roads_used = roads.map (fun nb => nb.road) ∧
      routeEastW.total_distance_km = sumDistance roads ∧
      routeEastW.total_time_min = sumTime roads) :=
  ⟨(a_star_route_spec (fun _ => 0) ("Moon_Base") ("Zone_East") [] ("time")).1
      (Or.inl (by decide)),
   (a_star_route_spec (fun _ => 0) ("Central_Depot") ("Zone_East") [] ("time")).2
      routeEastW (by with_unfolding_all rfl)⟩

/-- C2 (amended, validity part): every route `a_star_route` returns is a
genuine path of the road network from the start node to the goal node —
consecutive path nodes joined by network edges — and none of its roads is
blocked. -/
theorem a_star_route_valid_path (hf : String → ℚ) (start goal : String)
    (blocked : List String) (optimize_for : String) (r : RouteResult)
    (h : a_star_route hf start goal blocked optimize_for = some r) :
    ∃ tail roads, r.path = start :: tail ∧ chainLast start tail = goal ∧
      isChain (build_graph blocked) start tail roads ∧
      r.roads_used = roads.map (fun nb => nb.road) ∧
      ∀ rd ∈ r.roads_used, rd ∉ blocked ∧ ∃ ed ∈ roadNetworkEdges, rd = ed.road := by
  unfold a_star_route at h
  by_cases hn : start ∈ nodeNames ∧ goal ∈ nodeNames
  swap
  · rw [if_neg hn] at h; exact absurd h (by simp)
  rw [if_pos hn] at h
  have hinit : ∀ e ∈ [(⟨hf start, start, [start], 0, []⟩ : QEntry)],
      EntryInv (build_graph blocked) start optimize_for e := by
    intro e he
    rcases List.mem_singleton.1 he with rfl
    exact ⟨[], rfl, trivial, rfl, by simp [costOf, sumTime, sumDistance]⟩
  obtain ⟨tail, roads, h1, h2, h3, h4, _, _, _⟩ :=
    aStarLoop_sound goal optimize_for hf (build_graph blocked) start astarFuel
      _ _ _ hinit r h
  refine ⟨tail, roads, h1, h3, h2, h4, ?_⟩
  intro rd hrd
  rw [h4] at hrd
  obtain ⟨nb, hnb, rfl⟩ := List.mem_map.1 hrd
  obtain ⟨v, hv⟩ := isChain_roads _ start tail roads h2 nb hnb
  obtain ⟨ed, hed, hblk, hcase⟩ := build_graph_adj blocked v nb hv
  have hroad : nb.road = ed.road := by
    rcases hcase with ⟨_, rfl⟩ | ⟨_, rfl⟩ <;> rfl
  exact ⟨hroad ▸ hblk, ed, hed, hroad⟩

/-- The route returned for `Central_Depot → Zone_North` when `Anna_Salai` is
blocked, under a zero heuristic. -/
def routeNorthW : RouteResult :=
  ⟨["Central_Depot", "Link_Road_North", "Zone_North"], ["NH_48", "NH_48"], 7, 21,
   [(130827 / 10000, 802707 / 10000), (328 / 25, 4011 / 50), (263 / 20, 401 / 5)]⟩

set_option maxRecDepth 10000 in
/-- Witness for C2 (amended, validity part) at the concrete query
`Central_Depot → Zone_North` with `Anna_Salai` blocked. -/
theorem a_star_route_valid_path_witness :
    ∃ tail roads, routeNorthW.path = "Central_Depot" :: tail ∧
      chainLast ("Central_Depot") tail = "Zone_North" ∧
      isChain (build_graph ["Anna_Salai"]) ("Central_Depot") tail roads ∧
      routeNorthW.roads_used = roads.map (fun nb => nb.road) ∧
      ∀ rd ∈ routeNorthW.roads_used,
        rd ∉ ["Anna_Salai"] ∧ ∃ ed ∈ roadNetworkEdges, rd = ed.road :=
  a_star_route_valid_path (fun _ => 0) ("Central_Depot") ("Zone_North") ["Anna_Salai"]
    ("time") routeNorthW (by with_unfolding_all rfl)

/-! ### The haversine heuristic and its inadmissibility -/

/-- `haversine_distance` (routing.py lines 9–21): great-circle distance in
kilometres between two coordinate pairs, Earth radius 6371 km. -/
noncomputable def haversine_distance (c1 c2 : ℚ × ℚ) : ℝ :=
  let lat1 : ℝ := (c1.1 : ℝ) * Real.pi / 180
  let lon1 : ℝ := (c1.2 : ℝ) * Real.pi / 180
  let lat2 : ℝ := (c2.1 : ℝ) * Real.pi / 180
  let lon2 : ℝ := (c2.2 : ℝ) * Real.pi / 180
  let dlat := lat2 - lat1
  let dlon := lon2 - lon1
  let a := Real.sin (dlat / 2) ^ 2 + Real.cos lat1 * Real.cos lat2 * Real.sin (dlon / 2) ^ 2
  6371 * (2 * Real.arcsin (Real.sqrt a))

/-- The A* `heuristic` closure (routing.py lines 76–83): straight-line
distance to the goal, divided by 30 km/h and expressed in minutes when
optimising for time, else left in kilometres. -/
noncomputable def heuristic (optimize_for goal node : String) : ℝ :=
  let dist := haversine_distance (nodeCoord node) (nodeCoord goal)
  if optimize_for = "time" then dist / 30 * 60 else dist

set_option maxHeartbeats 1000000 in
/-- The haversine distance between `OMR_Node` and `Zone_South` exceeds 5 km:
the heuristic is not admissible on this network. -/
theorem hav_omr_south_gt_five :
    (5 : ℝ) < haversine_distance (1295 / 100, 8024 / 100) (129 / 10, 8015 / 100) := by
  have hpi1 := Real.pi_gt_3141592
  have hpi2 := Real.pi_lt_315
  have hpi0 := Real.pi_pos
  unfold haversine_distance
  dsimp only
  have hdlat : ((129 / 10 : ℚ) : ℝ) * Real.pi / 180 - ((1295 / 100 : ℚ) : ℝ) * Real.pi / 180
      = -(Real.pi / 3600) := by push_cast; ring
  have hdlon : ((8015 / 100 : ℚ) : ℝ) * Real.pi / 180 - ((8024 / 100 : ℚ) : ℝ) * Real.pi / 180
      = -(Real.pi / 2000) := by push_cast; ring
  rw [hdlat, hdlon]
  have h2 : -(Real.pi / 3600) / 2 = -(Real.pi / 7200) := by ring
  have h3 : -(Real.pi / 2000) / 2 = -(Real.pi / 4000) := by ring
  rw [h2, h3, Real.sin_neg, Real.sin_neg, neg_sq, neg_sq]
  set A : ℝ := Real.sin (Real.pi / 7200) ^ 2 +
    Real.cos (((1295 / 100 : ℚ) : ℝ) * Real.pi / 180) *
      Real.cos (((129 / 10 : ℚ) : ℝ) * Real.pi / 180) * Real.sin (Real.pi / 4000) ^ 2 with hA
  have hsin_pos : 0 < Real.sin (Real.pi / 7200) := by
    apply Real.sin_pos_of_pos_of_lt_pi
    · positivity
    · nlinarith
  have hcos1 : 0 ≤ Real.cos (((1295 / 100 : ℚ) : ℝ) * Real.pi / 180) := by
    apply Real.cos_nonneg_of_mem_Icc
    constructor
    · push_cast; nlinarith
    · push_cast; nlinarith
  have hcos2 : 0 ≤ Real.cos (((129 / 10 : ℚ) : ℝ) * Real.pi / 180) := by
    apply Real.cos_nonneg_of_mem_Icc
    constructor
    · push_cast; nlinarith
    · push_cast; nlinarith
  have hA_lb : Real.sin (Real.pi / 7200) ^ 2 ≤ A := by
    rw [hA]
    nlinarith [sq_nonneg (Real.sin (Real.pi / 4000)), hcos1, hcos2,
      mul_nonneg hcos1 hcos2]
  have hs1 : Real.sin (Real.pi / 7200) ≤ Real.pi / 7200 :=
    Real.sin_le (by positivity)
  have hs2 : Real.sin (Real.pi / 4000) ≤ Real.pi / 4000 :=
    Real.sin_le (by positivity)
  have hsin2_pos : 0 ≤ Real.sin (Real.pi / 4000) := by
    apply Real.sin_nonneg_of_nonneg_of_le_pi
    · positivity
    · nlinarith
  have hc1 : Real.cos (((1295 / 100 : ℚ) : ℝ) * Real.pi / 180) ≤ 1 := Real.cos_le_one _
  have hc2 : Real.cos (((129 / 10 : ℚ) : ℝ) * Real.pi / 180) ≤ 1 := Real.cos_le_one _
  have hq1 : Real.sin (Real.pi / 7200) ^ 2 ≤ (Real.pi / 7200) ^ 2 := by
    nlinarith [hsin_pos.le, hs1]
  have hq2 : Real.sin (Real.pi / 4000) ^ 2 ≤ (Real.pi / 4000) ^ 2 := by
    nlinarith [hsin2_pos, hs2]
  have hcc : Real.cos (((1295 / 100 : ℚ) : ℝ) * Real.pi / 180) *
      Real.cos (((129 / 10 : ℚ) : ℝ) * Real.pi / 180) ≤ 1 := mul_le_one hc1 hcos2 hc2
  have hprod : Real.cos (((1295 / 100 : ℚ) : ℝ) * Real.pi / 180) *
      Real.cos (((129 / 10 : ℚ) : ℝ) * Real.pi / 180) * Real.sin (Real.pi / 4000) ^ 2 ≤
      Real.sin (Real.pi / 4000) ^ 2 :=
    mul_le_of_le_one_left (sq_nonneg _) hcc
  have hA_ub : A ≤ 1 := by
    rw [hA]
    nlinarith [hq1, hq2, hprod, hpi2, hpi0]
  have hA_pos : 0 ≤ A := le_trans (sq_nonneg _) hA_lb
  have hsqrt_lb : Real.sin (Real.pi / 7200) ≤ Real.sqrt A := by
    have h := Real.sqrt_le_sqrt hA_lb
    rwa [Real.sqrt_sq hsin_pos.le] at h
  have hsqrt_ub : Real.sqrt A ≤ 1 := Real.sqrt_le_one.2 hA_ub
  have harcsin : Real.sqrt A ≤ Real.arcsin (Real.sqrt A) := by
    have hnn : 0 ≤ Real.arcsin (Real.sqrt A) := Real.arcsin_nonneg.2 (Real.sqrt_nonneg A)
    have hsin := Real.sin_arcsin
      (le_trans (by norm_num : (-1 : ℝ) ≤ 0) (Real.sqrt_nonneg A)) hsqrt_ub
    calc Real.sqrt A = Real.sin (Real.arcsin (Real.sqrt A)) := hsin.symm
      _ ≤ Real.arcsin (Real.sqrt A) := Real.sin_le hnn
  have hcube_ub : Real.pi ^ 3 ≤ (3.15 : ℝ) ^ 3 := pow_le_pow_left hpi0.le hpi2.le 3
  have hsin_lb : (5 : ℝ) / 12742 < Real.sin (Real.pi / 7200) := by
    have hcube := Real.sin_gt_sub_cube (x := Real.pi / 7200) (by positivity) (by nlinarith)
    have hnum : (5 : ℝ) / 12742 < Real.pi / 7200 - (Real.pi / 7200) ^ 3 / 4 := by
      have hexp : (Real.pi / 7200) ^ 3 = Real.pi ^ 3 / 7200 ^ 3 := by ring
      rw [hexp]
      nlinarith [hcube_ub, hpi1]
    linarith
  calc (5 : ℝ) = 12742 * (5 / 12742) := by norm_num
    _ < 12742 * Real.sin (Real.pi / 7200) := by
        exact mul_lt_mul_of_pos_left hsin_lb (by norm_num)
    _ ≤ 12742 * Real.sqrt A := mul_le_mul_of_nonneg_left hsqrt_lb (by norm_num)
    _ ≤ 12742 * Real.arcsin (Real.sqrt A) := mul_le_mul_of_nonneg_left harcsin (by norm_num)
    _ = 6371 * (2 * Real.arcsin (Real.sqrt A)) := by ring

/-- A rational heuristic toward `Anna_Salai_Node` in distance mode, agreeing
with the source's float haversine heuristic to within `10 ^ (-6)` at every
node; like the source's, it overestimates the remaining distance at
`Zone_Central` (3.104597 km versus a 2 km remaining road distance). -/
def hAnnaApprox (n : String) : ℚ :=
  (([("Central_Depot", (1688061 / 500000 : ℚ)),
     ("Anna_Salai_Node", 0),
     ("OMR_Node", 3069833 / 250000),
     ("ECR_Node", 9470727 / 1000000),
     ("Mount_Road_Node", 618421 / 250000),
     ("Marina_Node", 1118311 / 250000),
     ("Velachery_Node", 9470727 / 1000000),
     ("Ambattur_Node", 746787 / 62500),
     ("Tambaram_Node", 11065813 / 500000),
     ("Zone_North", 5689301 / 500000),
     ("Zone_South", 833241 / 40000),
     ("Zone_East", 2764507 / 500000),
     ("Zone_West", 8143073 / 500000),
     ("Zone_Central", 3104597 / 1000000),
     ("Link_Road_East", 3249563 / 1000000),
     ("Link_Road_West", 17331 / 1600),
     ("Link_Road_North", 7420823 / 1000000),
     ("Link_Road_South", 3597961 / 250000)].lookup n).getD 0)

set_option maxRecDepth 10000 in
/-- C2 counterexample.  First part: the road network contains the direct edge
`OMR_Node → Zone_South` of recorded length 5 km (so with no roads blocked the
optimal remaining distance-cost from `OMR_Node` to the goal `Zone_South` is
at most 5), yet the haversine heuristic at `OMR_Node` for that goal exceeds
5 — the straight-line heuristic overestimates the remaining cost, because the
network's recorded edge lengths are shorter than the geometry of its
coordinates.  Second part: under a heuristic that overestimates this way
(a rational approximation of the source's, exhibited at goal
`Anna_Salai_Node`), the search returns the direct 3.5 km route from
`Central_Depot` even though a 3 km path via `Zone_Central` exists — the
returned cost is not minimal. -/
theorem heuristic_overestimates_remaining_cost :
    ((∃ nb ∈ adj (build_graph []) ("OMR_Node"),
        nb.toNode = "Zone_South" ∧ nb.distance = 5 ∧ nb.road = "OMR") ∧
      (5 : ℝ) < heuristic ("distance") ("Zone_South") ("OMR_Node")) ∧
    (a_star_route hAnnaApprox ("Central_Depot") ("Anna_Salai_Node") [] ("distance") =
        some ⟨["Central_Depot", "Anna_Salai_Node"], ["Anna_Salai"], 7 / 2, 10,
          [(130827 / 10000, 802707 / 10000), (653 / 50, 321 / 4)]⟩ ∧
      isChain (build_graph []) ("Central_Depot") ["Zone_Central", "Anna_Salai_Node"]
        [⟨"Zone_Central", "Central_Link", 1, 5⟩, ⟨"Anna_Salai_Node", "Link_1", 2, 6⟩] ∧
      sumDistance [⟨"Zone_Central", "Central_Link", 1, 5⟩,
        ⟨"Anna_Salai_Node", "Link_1", 2, 6⟩] = 3 ∧ (3 : ℚ) < 7 / 2) := by
  constructor
  · constructor
    · with_unfolding_all decide
    · have hcoord1 : nodeCoord ("OMR_Node") = (1295 / 100, 8024 / 100) := by
        with_unfolding_all rfl
      have hcoord2 : nodeCoord ("Zone_South") = (129 / 10, 8015 / 100) := by
        with_unfolding_all rfl
      unfold heuristic
      rw [if_neg (by decide), hcoord1, hcoord2]
      exact hav_omr_south_gt_five
  · refine ⟨by with_unfolding_all rfl,
      ⟨by with_unfolding_all decide, rfl, by with_unfolding_all decide, rfl, trivial⟩,
      by with_unfolding_all rfl, by norm_num⟩

/-! ## Similarity metric (`calculate_scenario_similarity`, agent.py lines 89–169) -/

/-- Hospital load normalised to the 0–1 scale (a value above 1 is treated as
a percentage and divided by 100). -/
def normLoad (q : ℚ) : ℚ := if q > 1 then q / 100 else q

/-- The weighted squared-difference sum under the square root of
`calculate_scenario_similarity` (agent.py lines 121–126 and 161–167):
weights 2.0 (severity), 1.5 (population), 1.8 (hospital load), 1.0 (zone
count), 1.2 (blocked-road count), with normalisers 5, 100000, 1, 5, 5. -/
def weightedSumSq (current historical : Scenario) : ℚ :=
  let severity_diff := |(current.severity : ℚ) - (historical.severity : ℚ)| / 5
  let pop_diff :=
    |(current.population_affected : ℚ) - (historical.population_affected : ℚ)| / 100000
  let hospital_diff := |normLoad current.hospital_load - normLoad historical.hospital_load|
  let zones_diff :=
    |(current.zones_impacted.length : ℚ) - (historical.zones_impacted.length : ℚ)| / 5
  let blocked_diff :=
    |(current.blocked_roads.length : ℚ) - (historical.blocked_roads.length : ℚ)| / 5
  2 * severity_diff ^ 2 + (3 / 2) * pop_diff ^ 2 + (9 / 5) * hospital_diff ^ 2 +
    1 * zones_diff ^ 2 + (6 / 5) * blocked_diff ^ 2

/-- `disaster_specific_penalty` (agent.py lines 128–159): only flood, cyclone
and heatwave branches exist; any other shared disaster type — including
earthquake — contributes nothing.  The flood fallback for a missing
`water_level_m` reads the historical scenario's top-level `flood_depth_m`
for both sides, exactly as the source does. -/
def simPenalty (current historical : Scenario) : ℚ :=
  if current.disaster_type = historical.disaster_type then
    if current.disaster_type = "flood" then
      let hfall := historical.flood_depth_m.getD (1 / 2)
      let curr_water :=
        (current.disaster_specific.flood.bind fun f => f.water_level_m).getD hfall
      let hist_water :=
        (historical.disaster_specific.flood.bind fun f => f.water_level_m).getD hfall
      |curr_water - hist_water| * (3 / 10)
    else if current.disaster_type = "cyclone" then
      let hfall := historical.wind_speed_kmh.getD 100
      let curr_wind :=
        (current.disaster_specific.cyclone.bind fun c => c.max_wind_speed_kmph).getD hfall
      let hist_wind :=
        (historical.disaster_specific.cyclone.bind fun c => c.max_wind_speed_kmph).getD hfall
      |curr_wind - hist_wind| / 200 * (3 / 10)
    else if current.disaster_type = "heatwave" then
      let hfall := historical.temperature_c.getD 45
      let curr_temp :=
        (current.disaster_specific.heatwave.bind fun h => h.max_temp_c).getD hfall
      let hist_temp :=
        (historical.disaster_specific.heatwave.bind fun h => h.max_temp_c).getD hfall
      |curr_temp - hist_temp| / 20 * (3 / 10)
    else 0
  else 0

/-- `calculate_scenario_similarity` (agent.py lines 89–169): the square root
of the weighted squared-difference sum, plus the disaster-specific
penalty. -/
noncomputable def calculate_scenario_similarity (current historical : Scenario) : ℝ :=
  Real.sqrt ((weightedSumSq current historical : ℚ) : ℝ) +
    ((simPenalty current historical : ℚ) : ℝ)

/-- Modelled from the spec: the claimed flood penalty — the absolute
water-level difference (with the source's fallbacks) scaled by `0.3`. -/
def floodWaterPenalty (s1 s2 : Scenario) : ℚ :=
  let hfall := s2.flood_depth_m.getD (1 / 2)
  let w1 := (s1.disaster_specific.flood.bind fun f => f.water_level_m).getD hfall
  let w2 := (s2.disaster_specific.flood.bind fun f => f.water_level_m).getD hfall
  |w1 - w2| * (3 / 10)

/-- An earthquake scenario of magnitude 5 used to exhibit the missing
earthquake penalty. -/
def quakeMag5 : Scenario :=
  { disaster_type := "earthquake"
    severity := 4
    population_affected := 50000
    hospital_load := 80
    zones_impacted := ["North", "Central"]
    blocked_roads := []
    disaster_specific :=
      { DisasterSpecific.empty with earthquake := some ⟨some 5, some (1 / 5)⟩ }
    flood_depth_m := none
    wind_speed_kmh := none
    temperature_c := none
    resources_deployed_medical_kits := none }

/-- The same scenario with magnitude 8. -/
def quakeMag8 : Scenario :=
  { quakeMag5 with
    disaster_specific :=
      { DisasterSpecific.empty with earthquake := some ⟨some 8, some (1 / 5)⟩ } }

/-- C4 counterexample: two earthquake scenarios identical in every weighted
base feature but with magnitudes 5 and 8 are at similarity distance `0` —
no earthquake-specific penalty is ever added, while the claim's
`0.3`-scaled normalised magnitude difference would be positive. -/
theorem similarity_earthquake_magnitude_ignored :
    quakeMag5.disaster_specific.earthquake = some ⟨some 5, some (1 / 5)⟩ ∧
    quakeMag8.disaster_specific.earthquake = some ⟨some 8, some (1 / 5)⟩ ∧
    quakeMag5.disaster_type = "earthquake" ∧ quakeMag8.disaster_type = "earthquake" ∧
    calculate_scenario_similarity quakeMag5 quakeMag8 = 0 := by
  refine ⟨rfl, rfl, rfl, rfl, ?_⟩
  unfold calculate_scenario_similarity
  have h1 : weightedSumSq quakeMag5 quakeMag8 = 0 := by
    with_unfolding_all rfl
  have h2 : simPenalty quakeMag5 quakeMag8 = 0 := by
    with_unfolding_all rfl
  rw [h1, h2]
  norm_num

/-- C4 (amended): when both scenarios share the disaster type, the
disaster-specific penalty is added for flood pairs (normalised absolute
water-level difference scaled by `0.3`) — and likewise for cyclone and
heatwave pairs — but earthquake pairs receive no disaster-specific penalty:
their distance is the bare weighted distance. -/
theorem similarity_disaster_penalty_spec (s1 s2 : Scenario) :
    (s1.disaster_type = "earthquake" → s2.disaster_type = "earthquake" →
      calculate_scenario_similarity s1 s2 =
        Real.sqrt ((weightedSumSq s1 s2 : ℚ) : ℝ)) ∧
    (s1.disaster_type = "flood" → s2.disaster_type = "flood" →
      calculate_scenario_similarity s1 s2 =
        Real.sqrt ((weightedSumSq s1 s2 : ℚ) : ℝ) +
          ((floodWaterPenalty s1 s2 : ℚ) : ℝ)) := by
  constructor
  · intro h1 h2
    unfold calculate_scenario_similarity
    have hp : simPenalty s1 s2 = 0 := by
      simp [simPenalty, h1, h2]
    rw [hp]
    norm_num
  · intro h1 h2
    unfold calculate_scenario_similarity
    have hp : simPenalty s1 s2 = floodWaterPenalty s1 s2 := by
      simp [simPenalty, floodWaterPenalty, h1, h2]
    rw [hp]

/-- A flood scenario with 2 m of water, for the C4 witness. -/
def floodHighW : Scenario :=
  { quakeMag5 with
    disaster_type := "flood"
    disaster_specific := { DisasterSpecific.empty with flood := some ⟨some 2⟩ } }

/-- A flood scenario with 0.5 m of water, for the C4 witness. -/
def floodLowW : Scenario :=
  { quakeMag5 with
    disaster_type := "flood"
    disaster_specific := { DisasterSpecific.empty with flood := some ⟨some (1 / 2)⟩ } }

/-- Witness for C4 (amended) at concrete earthquake and flood pairs. -/
theorem similarity_disaster_penalty_spec_witness :
    (calculate_scenario_similarity quakeMag5 quakeMag8 =
      Real.sqrt ((weightedSumSq quakeMag5 quakeMag8 : ℚ) : ℝ)) ∧
    (calculate_scenario_similarity floodHighW floodLowW =
      Real.sqrt ((weightedSumSq floodHighW floodLowW : ℚ) : ℝ) +
        ((floodWaterPenalty floodHighW floodLowW : ℚ) : ℝ)) :=
  ⟨(similarity_disaster_penalty_spec quakeMag5 quakeMag8).1 rfl rfl,
   (similarity_disaster_penalty_spec floodHighW floodLowW).2 rfl rfl⟩

end ReliefRoute
